import Mathlib

/-!
Shallow embedding of the input type-descriptor schema and its recursive
structural validator from `dlhub_sdk/utils/validation.py` and
`dlhub_sdk/utils/types.py`, together with theorems settling the frozen
claims about that code.

Conventions of the embedding:
* Python values are the inductive `Value`; numpy arrays are flattened into
  the `Value.array` constructor carrying the shape, the dtype kind
  character and the row-major element list.
* Fallible Python code returns `Except PyErr _`; uncaught Python
  exceptions (`ValueError`, `TypeError`, `KeyError`, `AttributeError`,
  `IndexError`) are `PyErr` constructors carrying the message.
* The mutable `path` list threaded through the recursion is modelled by
  explicit state passing: every function takes the path it receives and a
  successful call returns the path as the mutation discipline
  (append, update of the last frame, pop) leaves it.
* `warnings.warn` emissions are collected in the success payload.
* The recursion of `validate` is tied with a fuel parameter (`validateF`);
  the value's nesting depth always suffices (`validateF_irrel`), and the
  fuel-exhaustion branch is unreachable for the canonical fuel.
-/

namespace Dlhub

/-- The Python classes that can appear while validating: the native types
named by `_type_name_to_type`'s table plus the builtins the validator can
reach through the `__builtins__[name]` fallback. -/
inductive PyClass where
  | bool
  | int
  | float
  | complex
  | str
  | ioBase
  | path
  | ndarray
  | datetime
  | timedelta
  | list
  | tuple
  | dict
  | object
  | set
  | frozenset
  | bytes
  | bytearray
  | range
  | noneType
deriving DecidableEq, Repr

/-- `cls.__name__` for each modelled class. -/
def className : PyClass → String
  | .bool => "bool"
  | .int => "int"
  | .float => "float"
  | .complex => "complex"
  | .str => "str"
  | .ioBase => "IOBase"
  | .path => "Path"
  | .ndarray => "ndarray"
  | .datetime => "datetime"
  | .timedelta => "timedelta"
  | .list => "list"
  | .tuple => "tuple"
  | .dict => "dict"
  | .object => "object"
  | .set => "set"
  | .frozenset => "frozenset"
  | .bytes => "bytes"
  | .bytearray => "bytearray"
  | .range => "range"
  | .noneType => "NoneType"

/-- `_type_name_to_type` returns either a single type object or a tuple of
type objects; `isinstance` accepts both but `issubclass` only accepts a
class as its first argument, so the distinction is kept. -/
inductive TypeSpec where
  | single (c : PyClass)
  | tup (cs : List PyClass)
deriving DecidableEq, Repr

/-- numpy `dtype.kind` character. -/
inductive NpKind where
  | b
  | i
  | u
  | f
  | c
  | m
  | M
  | S
  | U
  | V
  | O
deriving DecidableEq, Repr

/-- An entry of an ndarray descriptor's `shape` list: metadata stores
either an integer or a string (such as "None", "2" or "Any"). -/
inductive ShapeTok where
  | num (n : Int)
  | str (s : String)
deriving DecidableEq, Repr

/-- A shape entry after `_validate_ndarray`'s conversion
`int(x) if x != "None" else x`: an integer or the kept string "None". -/
inductive Dim where
  | num (n : Int)
  | noneTok
deriving DecidableEq, Repr

/-- The index/key slot of a path frame (`[dtype, index-or-key]`): the
initial `None`, a list/tuple index, or a dict key. -/
inductive Key where
  | noneK
  | idx (n : Nat)
  | key (s : String)
deriving DecidableEq, Repr

/-- The mutable `path` list: frames of container-kind string and slot. -/
abbrev Path := List (String × Key)

/-- Uncaught Python exceptions of the validator and builder. -/
inductive PyErr where
  | valueError (msg : String)
  | typeError (msg : String)
  | keyError (name : String)
  | attributeError (msg : String)
  | indexError (msg : String)
  | fuelExhausted
deriving DecidableEq, Repr

/-- Python runtime values reaching the validator.  A numpy array carries
its shape, its dtype kind and its elements flattened in row-major order
(`arr.item(0)` is the head of `items`). -/
inductive Value where
  | none_
  | bool (b : Bool)
  | int (n : Int)
  | float
  | str (s : String)
  | list (xs : List Value)
  | tuple (xs : List Value)
  | dict (kvs : List (String × Value))
  | array (shape : List Nat) (dtype : NpKind) (items : List Value)

/-- A type-descriptor dictionary (`db_entry`).  Each optional field is
absent (`none`) or present; reading an absent field with `[...]` raises
`KeyError`, which `getField` models.  The `extras` field holds the
verbatim-merged extra keyword arguments of `compose_argument_block`. -/
inductive Desc where
  | mk (type : String) (description : Option String)
       (shape : Option (List ShapeTok))
       (item_type : Option Desc)
       (element_types : Option (List Desc))
       (properties : Option (List (String × Desc)))
       (python_type : Option String)
       (extras : List (String × String))

def Desc.type : Desc → String
  | .mk t _ _ _ _ _ _ _ => t

def Desc.description : Desc → Option String
  | .mk _ d _ _ _ _ _ _ => d

def Desc.shape : Desc → Option (List ShapeTok)
  | .mk _ _ s _ _ _ _ _ => s

def Desc.item_type : Desc → Option Desc
  | .mk _ _ _ it _ _ _ _ => it

def Desc.element_types : Desc → Option (List Desc)
  | .mk _ _ _ _ et _ _ _ => et

def Desc.properties : Desc → Option (List (String × Desc))
  | .mk _ _ _ _ _ p _ _ => p

def Desc.python_type : Desc → Option String
  | .mk _ _ _ _ _ _ pt _ => pt

def Desc.extras : Desc → List (String × String)
  | .mk _ _ _ _ _ _ _ e => e

/-- `db_entry[name]`: field access on the metadata dictionary, raising
`KeyError` when the field is absent. -/
def getField {α : Type} (o : Option α) (name : String) : Except PyErr α :=
  match o with
  | some a => .ok a
  | none => .error (.keyError name)

/-- `type(v)` of a runtime value. -/
def pyClassOf : Value → PyClass
  | .none_ => .noneType
  | .bool _ => .bool
  | .int _ => .int
  | .float => .float
  | .str _ => .str
  | .list _ => .list
  | .tuple _ => .tuple
  | .dict _ => .dict
  | .array _ _ _ => .ndarray

/-- The `given` argument `_generate_err` receives from `_validate_type`:
`None` for the value `None` (validation.py line 123), otherwise the
value's type. -/
def pyTypeOfOpt : Value → Option PyClass
  | .none_ => none
  | v => some (pyClassOf v)

/-- `issubclass` on single classes: reflexive, `bool` is a subclass of
`int`, and every class is a subclass of `object`. -/
def issubclassC (c t : PyClass) : Bool :=
  c == t || (c == .bool && t == .int) || t == .object

/-- `isinstance(v, c)` for a single class. -/
def isinstanceC (v : Value) (c : PyClass) : Bool :=
  issubclassC (pyClassOf v) c

/-- `isinstance(v, spec)` where `spec` may be a type or a tuple of types. -/
def isinstanceSpec (v : Value) (spec : TypeSpec) : Bool :=
  match spec with
  | .single c => isinstanceC v c
  | .tup cs => cs.any (fun c => isinstanceC v c)

/-- `issubclass(c, spec)` with a single class as first argument. -/
def issubclassSpec (c : PyClass) (spec : TypeSpec) : Bool :=
  match spec with
  | .single t => issubclassC c t
  | .tup ts => ts.any (fun t => issubclassC c t)

/-- `in_type is int` (validation.py line 132): identity with the builtin
`int` class object. -/
def specIsInt (spec : TypeSpec) : Bool :=
  spec == .single .int

/-- The type table of `_type_name_to_type` (validation.py lines 25-33). -/
def typeTable : String → Option TypeSpec
  | "boolean" => some (.single .bool)
  | "integer" => some (.single .int)
  | "float" => some (.tup [.int, .float])
  | "number" => some (.tup [.int, .float, .complex])
  | "string" => some (.single .str)
  | "file" => some (.tup [.ioBase, .path, .str])
  | "ndarray" => some (.single .ndarray)
  | "datetime" => some (.single .datetime)
  | "timedelta" => some (.single .timedelta)
  | _ => none

/-- The `__builtins__[name]` fallback of `_type_name_to_type` line 37.
In an imported module — `validate`'s only mode of use — `__builtins__`
is the builtins dict, so the subscript form applies.

This is an *under-approximating* finite fragment of that dict: it
contains the builtin type names this development reasons about, and maps
every other string to `none` (the KeyError that line 38 converts to
ValueError).  The real builtins dict is larger (further type names such
as the exception classes, and non-type values such as `print`, which
Python resolves and which then make `isinstance` fail with its own
TypeError), so `none` here is faithful only for names verified absent
from Python's builtins.  Accordingly no theorem asserts the
unknown-name ValueError except at the name `"nonsense"` — the name the
repository's own `test_validation_errs` uses for exactly this error —
which is not a Python builtin. -/
def builtinsTypes : String → Option TypeSpec
  | "object" => some (.single .object)
  | "list" => some (.single .list)
  | "tuple" => some (.single .tuple)
  | "dict" => some (.single .dict)
  | "int" => some (.single .int)
  | "float" => some (.single .float)
  | "str" => some (.single .str)
  | "bool" => some (.single .bool)
  | "complex" => some (.single .complex)
  | "set" => some (.single .set)
  | "frozenset" => some (.single .frozenset)
  | "bytes" => some (.single .bytes)
  | "bytearray" => some (.single .bytearray)
  | "range" => some (.single .range)
  | _ => none

/-- `_type_name_to_type` (validation.py lines 15-39): look the name up in
the table, fall back to the builtins, and turn a miss into ValueError. -/
def typeNameToType (name : String) : Except PyErr TypeSpec :=
  match typeTable name with
  | some t => .ok t
  | none =>
    match builtinsTypes name with
    | some t => .ok t
    | none => .error (.valueError ("found an unknown type name in servable metadata: " ++ name))

/-- Python `repr` of a path frame's slot (`repr(jump[1])`). -/
def reprKey : Key → String
  | .noneK => "None"
  | .idx n => toString n
  | .key s => "\x27" ++ s ++ "\x27"

/-- Python `repr` of a string key, for the dict error messages. -/
def pyReprStr (s : String) : String :=
  "\x27" ++ s ++ "\x27"

/-- The `loc` string of `_generate_err` (lines 61 and 66-67): ` at input`
when the path is non-empty, followed by one bracketed repr per frame. -/
def locOf (p : Path) : String :=
  (if p.isEmpty then "" else " at input")
    ++ String.join (p.map (fun j => "[" ++ reprKey j.2 ++ "]"))

/-- `_generate_err` in its `msg=` form: every such call site passes
`ValueError` and a message ending in `"{loc}"`, so the model appends the
loc string to the given prefix. -/
def generateErrMsg (p : Path) (msgPre : String) : PyErr :=
  .valueError (msgPre ++ locOf p)

/-- `_generate_err` in its default form (no `msg`): both call sites pass
`TypeError`.  `expected.__name__` on a tuple of types raises
AttributeError (line 57), which propagates instead of the built error;
otherwise the expected name is wrapped with the path's container kinds
(lines 64-65) and the message of line 71 is produced. -/
def generateErrDefault (p : Path) (expected : TypeSpec) (given : Option PyClass) : PyErr :=
  match expected with
  | .tup _ => .attributeError "\x27tuple\x27 object has no attribute \x27__name__\x27"
  | .single c =>
    let e := p.foldr (fun j acc => j.1 ++ "[" ++ acc ++ "]") (className c)
    let g := match given with
      | some c2 => className c2
      | none => "None"
    .typeError ("dl.run given improper input type: expected " ++ e ++ ", received " ++ g ++ locOf p)

/-- The warning message of validation.py line 134. -/
def boolIntWarning : String :=
  "Boolean input has been validated as type Integer, this is likely unintended."

/-- `_validate_type` with `class_=False`: `isinstance` check, then the
boolean-as-integer warning. -/
def validateTypeInst (obj : Value) (inType : TypeSpec) (p : Path) : Except PyErr (List String) :=
  if isinstanceSpec obj inType = false then
    .error (generateErrDefault p inType (pyTypeOfOpt obj))
  else if isinstanceC obj .bool && specIsInt inType then
    .ok [boolIntWarning]
  else
    .ok []

/-- `_validate_type` with `class_=True` (reached from `_validate_ndarray`
line 217): `issubclass` requires a class, not a tuple of classes, as its
first argument and raises TypeError otherwise. -/
def validateTypeClass (objSpec inType : TypeSpec) (p : Path) : Except PyErr (List String) :=
  match objSpec with
  | .tup _ => .error (.typeError "issubclass() arg 1 must be a class")
  | .single c =>
    if issubclassSpec c inType = false then
      .error (generateErrDefault p inType (some c))
    else if issubclassC c .bool && specIsInt inType then
      .ok [boolIntWarning]
    else
      .ok []

/-- `simplify_numpy_dtype` (types.py lines 5-30), keyed on `dtype.kind`. -/
def simplify_numpy_dtype (kind : NpKind) : String :=
  match kind with
  | .b => "boolean"
  | .i => "integer"
  | .u => "integer"
  | .f => "float"
  | .c => "complex"
  | .m => "timedelta"
  | .M => "datetime"
  | .S => "string"
  | .U => "string"
  | _ => "python object"

/-- `arr.dtype is not void` (validation.py line 214) compares a dtype
instance with the `numpy.void` type by identity, so it is always True; the
model records the identity test itself, which is always False. -/
def dtypeIsVoidType (_ : NpKind) : Bool :=
  false

/-- Digit run of a decimal literal. -/
def parseDigits : List Char → Option Nat
  | [] => none
  | cs => goDigits cs 0
where
  goDigits : List Char → Nat → Option Nat
    | [], acc => some acc
    | c :: rest, acc =>
      if 48 ≤ c.toNat && c.toNat ≤ 57 then
        goDigits rest (acc * 10 + (c.toNat - 48))
      else
        none

/-- Python `int(s)` on a string: an optional sign followed by decimal
digits; anything else raises ValueError.  (Python additionally strips
whitespace and permits underscores; the shapes reaching the validator
never use either.) -/
def pyParseInt (s : String) : Option Int :=
  match s.data with
  | '-' :: rest => (parseDigits rest).map (fun n => -(n : Int))
  | '+' :: rest => (parseDigits rest).map (fun n => (n : Int))
  | cs => (parseDigits cs).map (fun n => (n : Int))

/-- `int(x) if x != "None" else x` on one shape entry.  Python's `int`
accepts integers unchanged and parses integer strings, raising ValueError
otherwise. -/
def convertTok (t : ShapeTok) : Except PyErr Dim :=
  match t with
  | .num n => .ok (.num n)
  | .str s =>
    if s = "None" then
      .ok .noneTok
    else
      match pyParseInt s with
      | some n => .ok (.num n)
      | none => .error (.valueError ("invalid literal for int() with base 10: " ++ pyReprStr s))

/-- The tuple conversion of validation.py line 196 over the whole shape. -/
def convertShape : List ShapeTok → Except PyErr (List Dim)
  | [] => .ok []
  | t :: ts =>
    match convertTok t with
    | .error e => .error e
    | .ok d =>
      match convertShape ts with
      | .error e => .error e
      | .ok ds => .ok (d :: ds)

/-- Python `repr` of one converted shape entry (ints or the string
"None"). -/
def reprDim : Dim → String
  | .num n => toString n
  | .noneTok => "\x27None\x27"

/-- Python `repr` of a tuple given the reprs of its elements. -/
def pyReprTuple (xs : List String) : String :=
  match xs with
  | [] => "()"
  | [x] => "(" ++ x ++ ",)"
  | _ => "(" ++ String.intercalate ", " xs ++ ")"

def reprDims (ds : List Dim) : String :=
  pyReprTuple (ds.map reprDim)

def reprShape (sh : List Nat) : String :=
  pyReprTuple (sh.map (fun n => toString n))

/-- `len(arr)`: the first dimension of the shape; a rank-0 array raises
TypeError. -/
def arrLen (sh : List Nat) : Except PyErr Nat :=
  match sh with
  | [] => .error (.typeError "len() of unsized object")
  | n :: _ => .ok n

/-- `arr.item(0)`: the first element of the row-major flattening; an array
of size 0 raises. -/
def arrItem0 (items : List Value) : Except PyErr Value :=
  match items with
  | [] => .error (.indexError "index 0 is out of bounds for size 0")
  | x :: _ => .ok x

/-- One comparison of validation.py line 205:
`t[0] == t[1] or t[1] == "None"`. -/
def dimOk (t : Nat × Dim) : Bool :=
  match t.2 with
  | .num m => ((t.1 : Int) == m)
  | .noneTok => true

/-- Result of one validation call: an uncaught exception, or success with
the path as the mutation discipline leaves it plus the warnings emitted
during the call. -/
abbrev Res := Except PyErr (Path × List String)

/-- The loop of `_validate_list` (lines 150-152): before each element the
last frame's slot is set to the index (`path[-1][1] = i`), then the
element is validated recursively.  `db_entry["item_type"]` is read inside
the loop, so an empty list never touches it.  `rec` is the recursive
`validate` call. -/
def goList (rec : Value → Desc → Path → Res) :
    List Value → Desc → Nat → Path → List String → Res
  | [], _, _, p, w => .ok (p, w)
  | x :: xs, d, i, p, w =>
    let p1 := p.dropLast ++ [("list", Key.idx i)]
    match getField d.item_type "item_type" with
    | .error e => .error e
    | .ok it =>
      match rec x it p1 with
      | .error e => .error e
      | .ok (p2, w2) => goList rec xs d (i + 1) p2 (w ++ w2)

/-- `_validate_list` (lines 137-153): append a `["list", None]` frame, run
the loop, pop the frame. -/
def validateList (rec : Value → Desc → Path → Res)
    (xs : List Value) (d : Desc) (p : Path) (w : List String) : Res :=
  match goList rec xs d 0 (p ++ [("list", Key.noneK)]) w with
  | .error e => .error e
  | .ok (p1, w1) => .ok (p1.dropLast, w1)

/-- The loop of `_validate_tuple` (lines 176-178) over the zipped value
and descriptor lists. -/
def goTuple (rec : Value → Desc → Path → Res) :
    List (Value × Desc) → Nat → Path → List String → Res
  | [], _, p, w => .ok (p, w)
  | (x, dx) :: rest, i, p, w =>
    let p1 := p.dropLast ++ [("tuple", Key.idx i)]
    match rec x dx p1 with
    | .error e => .error e
    | .ok (p2, w2) => goTuple rec rest (i + 1) p2 (w ++ w2)

/-- `_validate_tuple` (lines 156-179): arity check first, then the framed
loop over `zip(tup, db_entries)`. -/
def validateTuple (rec : Value → Desc → Path → Res)
    (xs : List Value) (ets : List Desc) (p : Path) (w : List String) : Res :=
  if (xs.length != ets.length) = true then
    .error (generateErrMsg p ("dl.run expected tuple of length " ++ toString ets.length
      ++ ", recieved tuple with length " ++ toString xs.length))
  else
    match goTuple rec (xs.zip ets) 0 (p ++ [("tuple", Key.noneK)]) w with
    | .error e => .error e
    | .ok (p1, w1) => .ok (p1.dropLast, w1)

/-- `_validate_ndarray` (lines 182-217): convert the declared shape,
compare rank and dimensions, then, when an `item_type` is declared and
`len(arr) > 0`, inspect the dtype: object-kind dtypes validate
`arr.item(0)` recursively, all others compare the dtype's simplified type
name against the declared item type with `issubclass`. -/
def validateNdarray (rec : Value → Desc → Path → Res)
    (sh : List Nat) (dt : NpKind) (items : List Value)
    (stoks : List ShapeTok) (d : Desc) (p : Path) (w : List String) : Res :=
  match convertShape stoks with
  | .error e => .error e
  | .ok dims =>
    let shapeErr := generateErrMsg p ("dl.run given improper input: expected ndarray.shape = "
      ++ reprDims dims ++ ", received shape: " ++ reprShape sh)
    if (sh.length != dims.length) = true then
      .error shapeErr
    else if ((sh.zip dims).all dimOk) = false then
      .error shapeErr
    else
      match d.item_type with
      | none => .ok (p, w)
      | some entry =>
        match arrLen sh with
        | .error e => .error e
        | .ok n =>
          if n > 0 then
            let ts := simplify_numpy_dtype dt
            if ts == "python object" && dtypeIsVoidType dt == false then
              match arrItem0 items with
              | .error e => .error e
              | .ok x0 =>
                match rec x0 entry p with
                | .error e => .error e
                | .ok (p2, w2) => .ok (p2, w ++ w2)
            else
              match typeNameToType ts with
              | .error e => .error e
              | .ok objSpec =>
                match typeNameToType entry.type with
                | .error e => .error e
                | .ok inSpec =>
                  match validateTypeClass objSpec inSpec p with
                  | .error e => .error e
                  | .ok w2 => .ok (p, w ++ w2)
          else
            .ok (p, w)

/-- The first loop of `_validate_dict` (lines 238-241): walk the value's
keys, updating the last frame, and raise on a key the properties do not
anticipate. -/
def checkUnexpected :
    List (String × Value) → List (String × Desc) → Path → Except PyErr Path
  | [], _, p => .ok p
  | (k, _) :: rest, props, p =>
    let p1 := p.dropLast ++ [("dict", Key.key k)]
    if (props.lookup k).isNone then
      .error (generateErrMsg p1 ("dl.run given improper input: given unexpected dictionary key: "
        ++ pyReprStr k))
    else
      checkUnexpected rest props p1

/-- The second loop of `_validate_dict` (lines 243-247): walk the
properties, raise on a missing key, otherwise validate the value stored
under the key. -/
def goProps (rec : Value → Desc → Path → Res) :
    List (String × Desc) → List (String × Value) → Path → List String → Res
  | [], _, p, w => .ok (p, w)
  | (k, dk) :: rest, kvs, p, w =>
    let p1 := p.dropLast ++ [("dict", Key.key k)]
    match kvs.lookup k with
    | none =>
      .error (generateErrMsg p1 ("dl.run given improper input: expected dictionary key: "
        ++ pyReprStr k ++ " to be present"))
    | some vk =>
      match rec vk dk p1 with
      | .error e => .error e
      | .ok (p2, w2) => goProps rec rest kvs p2 (w ++ w2)

/-- `_validate_dict` (lines 220-248): an empty (falsy) properties dict
skips every check; otherwise append a `["dict", None]` frame, reject
unexpected keys, then check and recurse through the expected keys, and
pop the frame. -/
def validateDict (rec : Value → Desc → Path → Res)
    (kvs : List (String × Value)) (props : List (String × Desc))
    (p : Path) (w : List String) : Res :=
  if props.isEmpty then
    .ok (p, w)
  else
    match checkUnexpected kvs props (p ++ [("dict", Key.noneK)]) with
    | .error e => .error e
    | .ok p1 =>
      match goProps rec props kvs p1 w with
      | .error e => .error e
      | .ok (p2, w2) => .ok (p2.dropLast, w2)

/-- The body of `validate` (lines 87-104): resolve the declared type name,
type-check the value against it, then dispatch on identity of the
resolved class to the container validators.  After a successful
`isinstance` check the value's constructor necessarily matches the
dispatched class, so the fall-through of the final match arm is the
source's silent success. -/
def validateBody (rec : Value → Desc → Path → Res)
    (v : Value) (d : Desc) (p : Path) : Res :=
  match typeNameToType d.type with
  | .error e => .error e
  | .ok spec =>
    match validateTypeInst v spec p with
    | .error e => .error e
    | .ok w1 =>
      match spec, v with
      | .single .list, .list xs => validateList rec xs d p w1
      | .single .tuple, .tuple xs =>
        (match getField d.element_types "element_types" with
         | .error e => .error e
         | .ok ets => validateTuple rec xs ets p w1)
      | .single .ndarray, .array sh dt items =>
        (match getField d.shape "shape" with
         | .error e => .error e
         | .ok stoks => validateNdarray rec sh dt items stoks d p w1)
      | .single .dict, .dict kvs =>
        (match getField d.properties "properties" with
         | .error e => .error e
         | .ok props => validateDict rec kvs props p w1)
      | _, _ => .ok (p, w1)

mutual

/-- Nesting depth of a value: the fuel `validate`'s recursion needs, since
every recursive call of the source descends into an element of a
container. -/
def depthV : Value → Nat
  | .none_ => 1
  | .bool _ => 1
  | .int _ => 1
  | .float => 1
  | .str _ => 1
  | .list xs => depthL xs + 1
  | .tuple xs => depthL xs + 1
  | .dict kvs => depthKV kvs + 1
  | .array _ _ items => depthL items + 1

def depthL : List Value → Nat
  | [] => 0
  | x :: xs => max (depthV x) (depthL xs)

def depthKV : List (String × Value) → Nat
  | [] => 0
  | (_, v) :: kvs => max (depthV v) (depthKV kvs)

end

/-- The recursion of `validate` tied with a fuel parameter.  Every
recursive call of the source descends to a strict sub-value, so any fuel
of at least the value's depth makes the exhaustion branch unreachable
(`validateF_irrel`). -/
def validateF : Nat → Value → Desc → Path → Res
  | 0, _, _, _ => .error .fuelExhausted
  | fuel + 1, v, d, p =>
    validateBody (fun v1 d1 p1 => validateF fuel v1 d1 p1) v d p

/-- `validate(inputs, db_entry)` with the default `path=None`: a fresh
empty path. -/
def validate (v : Value) (d : Desc) : Res :=
  validateF (depthV v) v d []

/-- `validate(inputs, db_entry, path)` with an explicit caller path. -/
def validateAt (v : Value) (d : Desc) (p : Path) : Res :=
  validateF (depthV v) v d p

/-- The `item_type` argument of `compose_argument_block`: either a bare
string type name or a nested descriptor dictionary. -/
inductive ItemTypeArg where
  | str (s : String)
  | desc (d : Desc)

/-- `compose_argument_block` (types.py lines 33-100).  The kind-specific
checks run in source order; `shape`, `python_type` and `properties` are
stored only inside their kind's branch, while `item_type` (expanded from
a bare string to a minimal descriptor) and `element_types` are stored for
any kind when supplied.  Extra keyword arguments are merged verbatim. -/
def compose_argument_block (data_type : String) (description : String)
    (shape : Option (List ShapeTok)) (item_type : Option ItemTypeArg)
    (python_type : Option String) (properties : Option (List (String × Desc)))
    (element_types : Option (List Desc)) (kwargs : List (String × String)) :
    Except PyErr Desc :=
  match (if data_type == "ndarray" then
           match shape with
           | none => Except.error (PyErr.valueError "Shape must be specified for ndarrays")
           | some s => Except.ok (some s)
         else Except.ok none : Except PyErr (Option (List ShapeTok))) with
  | .error e => .error e
  | .ok shapeField =>
    if data_type == "list" && item_type.isNone then
      .error (.valueError "Item type must be defined for lists")
    else if data_type == "tuple" && element_types.isNone then
      .error (.valueError "Element type must be defined for tuples")
    else
      match (if data_type == "python object" then
               match python_type with
               | none => Except.error (PyErr.valueError "Python type must be defined ")
               | some pt => Except.ok (some pt)
             else Except.ok none : Except PyErr (Option String)) with
      | .error e => .error e
      | .ok ptField =>
        match (if data_type == "dict" then
                 match properties with
                 | none => Except.error (PyErr.valueError "Properties must be defined for dict type")
                 | some pr => Except.ok (some pr)
               else Except.ok none : Except PyErr (Option (List (String × Desc)))) with
        | .error e => .error e
        | .ok propsField =>
          let itField : Option Desc :=
            match item_type with
            | none => none
            | some (.desc dd) => some dd
            | some (.str s) => some (Desc.mk s none none none none none none [])
          .ok (Desc.mk data_type (some description) shapeField itField
                element_types propsField ptField kwargs)

/-- A bare descriptor carrying only a kind name, `{"type": k}`. -/
def bareDesc (k : String) : Desc :=
  Desc.mk k none none none none none none []

/-- A list descriptor with the given item type. -/
def listDesc (it : Desc) : Desc :=
  Desc.mk "list" none none (some it) none none none []

/-- A dict descriptor with the given properties mapping. -/
def dictDesc (props : List (String × Desc)) : Desc :=
  Desc.mk "dict" none none none none (some props) none []

/-- An ndarray descriptor with the given shape and optional item type. -/
def ndDesc (stoks : List ShapeTok) (it : Option Desc) : Desc :=
  Desc.mk "ndarray" none (some stoks) it none none none []

/-- A python-object descriptor with the given `python_type`. -/
def pyObjDesc (pt : String) : Desc :=
  Desc.mk "python object" none none none none none (some pt) []

/-- First key of the value dict that the properties mapping does not
anticipate, in the value's iteration order: the key whose
`UnexpectedKey`-style error `_validate_dict`'s first loop raises. -/
def firstUnexpected (kvs : List (String × Value)) (props : List (String × Desc)) :
    Option String :=
  (kvs.find? (fun kv => (props.lookup kv.1).isNone)).map (fun kv => kv.1)

/-- `pat` is a prefix of `l`, on character lists. -/
def isPrefixChars : List Char → List Char → Bool
  | [], _ => true
  | _ :: _, [] => false
  | a :: as, b :: bs => a == b && isPrefixChars as bs

/-- `pat` occurs somewhere in `l`, on character lists. -/
def containsChars (pat : List Char) : List Char → Bool
  | [] => isPrefixChars pat []
  | c :: rest => isPrefixChars pat (c :: rest) || containsChars pat rest

/-- Substring occurrence: `pat` occurs in `s`. -/
def containsSub (s pat : String) : Bool :=
  containsChars pat.data s.data

/-! ## Depth lemmas -/

theorem depthV_pos (v : Value) : 1 ≤ depthV v := by
  cases v <;> simp [depthV]

theorem depthV_le_depthL {x : Value} {xs : List Value} (h : x ∈ xs) :
    depthV x ≤ depthL xs := by
  induction xs with
  | nil => cases h
  | cons y ys ih =>
    rw [depthL]
    cases h with
    | head => exact Nat.le_max_left _ _
    | tail _ hmem => exact Nat.le_trans (ih hmem) (Nat.le_max_right _ _)

theorem depthV_le_of_lookup {kvs : List (String × Value)} {k : String} {v : Value}
    (h : kvs.lookup k = some v) : depthV v ≤ depthKV kvs := by
  induction kvs with
  | nil => simp [List.lookup] at h
  | cons kv rest ih =>
    rw [List.lookup] at h
    rw [depthKV]
    cases hk : (k == kv.1) with
    | true =>
      rw [hk] at h
      simp at h
      subst h
      exact Nat.le_max_left _ _
    | false =>
      rw [hk] at h
      exact Nat.le_trans (ih h) (Nat.le_max_right _ _)

/-! ## Congruence of the loops in the recursive call -/

theorem goList_congr (rec1 rec2 : Value → Desc → Path → Res)
    {xs : List Value} (h : ∀ x ∈ xs, ∀ d1 p1, rec1 x d1 p1 = rec2 x d1 p1) :
    ∀ (d : Desc) (i : Nat) (p : Path) (w : List String),
      goList rec1 xs d i p w = goList rec2 xs d i p w := by
  induction xs with
  | nil => intro d i p w; rfl
  | cons x rest ih =>
    intro d i p w
    simp only [goList]
    cases getField d.item_type "item_type" with
    | error e => rfl
    | ok it =>
      simp only []
      rw [h x (by simp) it _]
      cases hx : rec2 x it (p.dropLast ++ [("list", Key.idx i)]) with
      | error e => rfl
      | ok pw =>
        cases pw with
        | mk p2 w2 => exact ih (fun y hy d1 p1 => h y (by simp [hy]) d1 p1) d (i + 1) p2 (w ++ w2)

theorem goTuple_congr (rec1 rec2 : Value → Desc → Path → Res)
    {l : List (Value × Desc)} (h : ∀ xd ∈ l, ∀ d1 p1, rec1 xd.1 d1 p1 = rec2 xd.1 d1 p1) :
    ∀ (i : Nat) (p : Path) (w : List String),
      goTuple rec1 l i p w = goTuple rec2 l i p w := by
  induction l with
  | nil => intro i p w; rfl
  | cons xd rest ih =>
    intro i p w
    cases xd with
    | mk x dx =>
      simp only [goTuple]
      rw [h (x, dx) (by simp) dx _]
      cases hx : rec2 x dx (p.dropLast ++ [("tuple", Key.idx i)]) with
      | error e => rfl
      | ok pw =>
        cases pw with
        | mk p2 w2 => exact ih (fun y hy d1 p1 => h y (by simp [hy]) d1 p1) (i + 1) p2 (w ++ w2)

theorem goProps_congr (rec1 rec2 : Value → Desc → Path → Res)
    {kvs : List (String × Value)}
    (h : ∀ k v1, kvs.lookup k = some v1 → ∀ d1 p1, rec1 v1 d1 p1 = rec2 v1 d1 p1) :
    ∀ (props : List (String × Desc)) (p : Path) (w : List String),
      goProps rec1 props kvs p w = goProps rec2 props kvs p w := by
  intro props
  induction props with
  | nil => intro p w; rfl
  | cons kd rest ih =>
    intro p w
    cases kd with
    | mk k dk =>
      simp only [goProps]
      cases hk : kvs.lookup k with
      | none => rfl
      | some vk =>
        simp only []
        rw [h k vk hk dk _]
        cases hx : rec2 vk dk (p.dropLast ++ [("dict", Key.key k)]) with
        | error e => rfl
        | ok pw =>
          cases pw with
          | mk p2 w2 => exact ih p2 (w ++ w2)

theorem validateNdarray_congr (rec1 rec2 : Value → Desc → Path → Res)
    {items : List Value}
    (h : ∀ x ∈ items, ∀ d1 p1, rec1 x d1 p1 = rec2 x d1 p1)
    (sh : List Nat) (dt : NpKind) (stoks : List ShapeTok) (d : Desc)
    (p : Path) (w : List String) :
    validateNdarray rec1 sh dt items stoks d p w
      = validateNdarray rec2 sh dt items stoks d p w := by
  simp only [validateNdarray]
  cases convertShape stoks with
  | error e => rfl
  | ok dims =>
    simp only []
    by_cases h1 : (sh.length != dims.length) = true
    · rw [if_pos h1, if_pos h1]
    · rw [if_neg h1, if_neg h1]
      by_cases h2 : ((sh.zip dims).all dimOk) = false
      · rw [if_pos h2, if_pos h2]
      · rw [if_neg h2, if_neg h2]
        cases d.item_type with
        | none => rfl
        | some entry =>
          simp only []
          cases arrLen sh with
          | error e => rfl
          | ok n =>
            simp only []
            by_cases h3 : n > 0
            · rw [if_pos h3, if_pos h3]
              by_cases h4 : (simplify_numpy_dtype dt == "python object"
                  && dtypeIsVoidType dt == false) = true
              · rw [if_pos h4, if_pos h4]
                cases items with
                | nil => rfl
                | cons x rest =>
                  simp only [arrItem0]
                  rw [h x (by simp) entry p]
              · rw [if_neg h4, if_neg h4]
            · rw [if_neg h3, if_neg h3]

/-- The body of `validate` only invokes the recursive call on strict
sub-values, so two recursive calls agreeing below the value's depth give
the same result. -/
theorem validateBody_congr (rec1 rec2 : Value → Desc → Path → Res)
    (v : Value) (d : Desc) (p : Path)
    (h : ∀ v1 d1 p1, depthV v1 < depthV v → rec1 v1 d1 p1 = rec2 v1 d1 p1) :
    validateBody rec1 v d p = validateBody rec2 v d p := by
  simp only [validateBody]
  cases typeNameToType d.type with
  | error e => rfl
  | ok spec =>
    simp only []
    cases validateTypeInst v spec p with
    | error e => rfl
    | ok w1 =>
      simp only []
      cases spec with
      | tup cs => cases v <;> rfl
      | single c =>
        cases c <;> cases v <;> try rfl
        case list.list xs =>
          simp only [validateList]
          rw [goList_congr rec1 rec2
            (fun x hx d1 p1 => h x d1 p1 (by
              rw [depthV]
              exact Nat.lt_succ_of_le (depthV_le_depthL hx)))]
        case tuple.tuple xs =>
          cases getField d.element_types "element_types" with
          | error e => rfl
          | ok ets =>
            simp only [validateTuple]
            by_cases hl : (xs.length != ets.length) = true
            · rw [if_pos hl, if_pos hl]
            · rw [if_neg hl, if_neg hl]
              rw [goTuple_congr rec1 rec2
                (fun xd hxd d1 p1 => h xd.1 d1 p1 (by
                  rw [depthV]
                  exact Nat.lt_succ_of_le (depthV_le_depthL
                    (List.of_mem_zip hxd).1)))]
        case ndarray.array sh dt items =>
          cases getField d.shape "shape" with
          | error e => rfl
          | ok stoks =>
            simp only []
            exact validateNdarray_congr rec1 rec2
              (fun x hx d1 p1 => h x d1 p1 (by
                rw [depthV]
                exact Nat.lt_succ_of_le (depthV_le_depthL hx))) sh dt stoks d p w1
        case dict.dict kvs =>
          cases getField d.properties "properties" with
          | error e => rfl
          | ok props =>
            simp only [validateDict]
            by_cases hp : props.isEmpty = true
            · rw [if_pos hp, if_pos hp]
            · rw [if_neg hp, if_neg hp]
              cases checkUnexpected kvs props (p ++ [("dict", Key.noneK)]) with
              | error e => rfl
              | ok p1 =>
                simp only []
                rw [goProps_congr rec1 rec2
                  (fun k v1 hk d1 p1 => h v1 d1 p1 (by
                    rw [depthV]
                    exact Nat.lt_succ_of_le (depthV_le_of_lookup hk)))]

/-- Fuel irrelevance: any two fuels at least the value's depth give the
same result, so the fuel-exhaustion branch is unreachable from
`validate`. -/
theorem validateF_irrel :
    ∀ (n m : Nat) (v : Value) (d : Desc) (p : Path),
      depthV v ≤ n → depthV v ≤ m → validateF n v d p = validateF m v d p := by
  intro n
  induction n with
  | zero =>
    intro m v d p h1 _
    exact absurd h1 (by have := depthV_pos v; omega)
  | succ k ih =>
    intro m v d p h1 h2
    cases m with
    | zero => exact absurd h2 (by have := depthV_pos v; omega)
    | succ m1 =>
      show validateBody _ v d p = validateBody _ v d p
      apply validateBody_congr
      intro v1 d1 p1 hlt
      exact ih m1 v1 d1 p1 (by omega) (by omega)

/-- Any sufficient fuel computes `validate`. -/
theorem validateF_eq_validateAt (fuel : Nat) (v : Value) (d : Desc) (p : Path)
    (h : depthV v ≤ fuel) : validateF fuel v d p = validateAt v d p :=
  validateF_irrel fuel (depthV v) v d p h (Nat.le_refl _)

/-! ## Path restoration: a successful call leaves the path as it found it -/

theorem goList_path (rec : Value → Desc → Path → Res)
    (hrec : ∀ v1 d1 p1 q1 w1, rec v1 d1 p1 = .ok (q1, w1) → q1 = p1) :
    ∀ (xs : List Value) (d : Desc) (i : Nat) (q : Path) (fr : String × Key)
      (w : List String) (p2 : Path) (w2 : List String),
      goList rec xs d i (q ++ [fr]) w = .ok (p2, w2) → ∃ fr2, p2 = q ++ [fr2] := by
  intro xs
  induction xs with
  | nil =>
    intro d i q fr w p2 w2 h
    simp only [goList] at h
    exact ⟨fr, by simp at h; exact h.1.symm⟩
  | cons x rest ih =>
    intro d i q fr w p2 w2 h
    simp only [goList, List.dropLast_concat] at h
    cases hg : getField d.item_type "item_type" with
    | error e => rw [hg] at h; simp at h
    | ok it =>
      rw [hg] at h
      simp only [] at h
      cases hr : rec x it (q ++ [("list", Key.idx i)]) with
      | error e => rw [hr] at h; simp at h
      | ok pw =>
        rw [hr] at h
        cases pw with
        | mk p3 w3 =>
          have hp3 : p3 = q ++ [("list", Key.idx i)] := hrec _ _ _ _ _ hr
          subst hp3
          simp only [] at h
          exact ih d (i + 1) q ("list", Key.idx i) (w ++ w3) p2 w2 h

theorem goTuple_path (rec : Value → Desc → Path → Res)
    (hrec : ∀ v1 d1 p1 q1 w1, rec v1 d1 p1 = .ok (q1, w1) → q1 = p1) :
    ∀ (l : List (Value × Desc)) (i : Nat) (q : Path) (fr : String × Key)
      (w : List String) (p2 : Path) (w2 : List String),
      goTuple rec l i (q ++ [fr]) w = .ok (p2, w2) → ∃ fr2, p2 = q ++ [fr2] := by
  intro l
  induction l with
  | nil =>
    intro i q fr w p2 w2 h
    simp only [goTuple] at h
    exact ⟨fr, by simp at h; exact h.1.symm⟩
  | cons xd rest ih =>
    intro i q fr w p2 w2 h
    cases xd with
    | mk x dx =>
      simp only [goTuple, List.dropLast_concat] at h
      cases hr : rec x dx (q ++ [("tuple", Key.idx i)]) with
      | error e => rw [hr] at h; simp at h
      | ok pw =>
        rw [hr] at h
        cases pw with
        | mk p3 w3 =>
          have hp3 : p3 = q ++ [("tuple", Key.idx i)] := hrec _ _ _ _ _ hr
          subst hp3
          simp only [] at h
          exact ih (i + 1) q ("tuple", Key.idx i) (w ++ w3) p2 w2 h

theorem checkUnexpected_path :
    ∀ (kvs : List (String × Value)) (props : List (String × Desc))
      (q : Path) (fr : String × Key) (p1 : Path),
      checkUnexpected kvs props (q ++ [fr]) = .ok p1 → ∃ fr2, p1 = q ++ [fr2] := by
  intro kvs
  induction kvs with
  | nil =>
    intro props q fr p1 h
    simp only [checkUnexpected] at h
    exact ⟨fr, by simp at h; exact h.symm⟩
  | cons kv rest ih =>
    intro props q fr p1 h
    cases kv with
    | mk k v0 =>
      simp only [checkUnexpected, List.dropLast_concat] at h
      by_cases hk : (props.lookup k).isNone = true
      · rw [if_pos hk] at h
        simp at h
      · rw [if_neg hk] at h
        exact ih props q ("dict", Key.key k) p1 h

theorem goProps_path (rec : Value → Desc → Path → Res)
    (hrec : ∀ v1 d1 p1 q1 w1, rec v1 d1 p1 = .ok (q1, w1) → q1 = p1) :
    ∀ (props : List (String × Desc)) (kvs : List (String × Value))
      (q : Path) (fr : String × Key) (w : List String)
      (p2 : Path) (w2 : List String),
      goProps rec props kvs (q ++ [fr]) w = .ok (p2, w2) → ∃ fr2, p2 = q ++ [fr2] := by
  intro props
  induction props with
  | nil =>
    intro kvs q fr w p2 w2 h
    simp only [goProps] at h
    exact ⟨fr, by simp at h; exact h.1.symm⟩
  | cons kd rest ih =>
    intro kvs q fr w p2 w2 h
    cases kd with
    | mk k dk =>
      simp only [goProps, List.dropLast_concat] at h
      cases hk : kvs.lookup k with
      | none => rw [hk] at h; simp at h
      | some vk =>
        rw [hk] at h
        simp only [] at h
        cases hr : rec vk dk (q ++ [("dict", Key.key k)]) with
        | error e => rw [hr] at h; simp at h
        | ok pw =>
          rw [hr] at h
          cases pw with
          | mk p3 w3 =>
            have hp3 : p3 = q ++ [("dict", Key.key k)] := hrec _ _ _ _ _ hr
            subst hp3
            simp only [] at h
            exact ih kvs q ("dict", Key.key k) (w ++ w3) p2 w2 h

/-- The body restores the path on success, provided the recursive call
does. -/
theorem validateBody_path (rec : Value → Desc → Path → Res)
    (hrec : ∀ v1 d1 p1 q1 w1, rec v1 d1 p1 = .ok (q1, w1) → q1 = p1)
    (v : Value) (d : Desc) (p : Path) (p2 : Path) (w : List String) :
    validateBody rec v d p = .ok (p2, w) → p2 = p := by
  simp only [validateBody]
  cases typeNameToType d.type with
  | error e => intro h; simp at h
  | ok spec =>
    simp only []
    cases validateTypeInst v spec p with
    | error e => intro h; simp at h
    | ok w1 =>
      simp only []
      cases spec with
      | tup cs =>
        cases v <;> (intro h; simp at h; exact h.1.symm)
      | single c =>
        cases c <;> cases v <;> try (intro h; simp at h; exact h.1.symm)
        case list.list xs =>
          intro h
          simp only [validateList] at h
          cases hg : goList rec xs d 0 (p ++ [("list", Key.noneK)]) w1 with
          | error e => rw [hg] at h; simp at h
          | ok pw =>
            rw [hg] at h
            cases pw with
            | mk p1 w2 =>
              simp only [] at h
              obtain ⟨fr2, hfr⟩ := goList_path rec hrec xs d 0 p _ w1 p1 w2 hg
              simp at h
              rw [← h.1, hfr, List.dropLast_concat]
        case tuple.tuple xs =>
          cases getField d.element_types "element_types" with
          | error e => intro h; simp at h
          | ok ets =>
            simp only [validateTuple]
            by_cases hl : (xs.length != ets.length) = true
            · rw [if_pos hl]; intro h; simp at h
            · rw [if_neg hl]
              intro h
              cases hg : goTuple rec (xs.zip ets) 0 (p ++ [("tuple", Key.noneK)]) w1 with
              | error e => rw [hg] at h; simp at h
              | ok pw =>
                rw [hg] at h
                cases pw with
                | mk p1 w2 =>
                  simp only [] at h
                  obtain ⟨fr2, hfr⟩ := goTuple_path rec hrec (xs.zip ets) 0 p _ w1 p1 w2 hg
                  simp at h
                  rw [← h.1, hfr, List.dropLast_concat]
        case ndarray.array sh dt items =>
          cases getField d.shape "shape" with
          | error e => intro h; simp at h
          | ok stoks =>
            simp only [validateNdarray]
            cases convertShape stoks with
            | error e => intro h; simp at h
            | ok dims =>
              simp only []
              by_cases h1 : (sh.length != dims.length) = true
              · rw [if_pos h1]; intro h; simp at h
              · rw [if_neg h1]
                by_cases h2 : ((sh.zip dims).all dimOk) = false
                · rw [if_pos h2]; intro h; simp at h
                · rw [if_neg h2]
                  cases d.item_type with
                  | none => intro h; simp at h; exact h.1.symm
                  | some entry =>
                    simp only []
                    cases arrLen sh with
                    | error e => intro h; simp at h
                    | ok n =>
                      simp only []
                      by_cases h3 : n > 0
                      · rw [if_pos h3]
                        by_cases h4 : (simplify_numpy_dtype dt == "python object"
                            && dtypeIsVoidType dt == false) = true
                        · rw [if_pos h4]
                          cases arrItem0 items with
                          | error e => intro h; simp at h
                          | ok x0 =>
                            simp only []
                            intro h
                            cases hr : rec x0 entry p with
                            | error e => rw [hr] at h; simp at h
                            | ok pw =>
                              rw [hr] at h
                              cases pw with
                              | mk p3 w3 =>
                                simp only [] at h
                                simp at h
                                rw [← h.1]
                                exact hrec _ _ _ _ _ hr
                        · rw [if_neg h4]
                          cases typeNameToType (simplify_numpy_dtype dt) with
                          | error e => intro h; simp at h
                          | ok objSpec =>
                            simp only []
                            cases typeNameToType entry.type with
                            | error e => intro h; simp at h
                            | ok inSpec =>
                              simp only []
                              cases validateTypeClass objSpec inSpec p with
                              | error e => intro h; simp at h
                              | ok w3 => intro h; simp at h; exact h.1.symm
                      · rw [if_neg h3]
                        intro h
                        simp at h
                        exact h.1.symm
        case dict.dict kvs =>
          cases getField d.properties "properties" with
          | error e => intro h; simp at h
          | ok props =>
            simp only [validateDict]
            by_cases hp : props.isEmpty = true
            · rw [if_pos hp]; intro h; simp at h; exact h.1.symm
            · rw [if_neg hp]
              intro h
              cases hc : checkUnexpected kvs props (p ++ [("dict", Key.noneK)]) with
              | error e => rw [hc] at h; simp at h
              | ok p1 =>
                rw [hc] at h
                simp only [] at h
                obtain ⟨fr2, hfr⟩ := checkUnexpected_path kvs props p _ p1 hc
                subst hfr
                cases hg : goProps rec props kvs (p ++ [fr2]) w1 with
                | error e => rw [hg] at h; simp at h
                | ok pw =>
                  rw [hg] at h
                  cases pw with
                  | mk p3 w3 =>
                    simp only [] at h
                    obtain ⟨fr3, hfr3⟩ := goProps_path rec hrec props kvs p fr2 w1 p3 w3 hg
                    simp at h
                    rw [← h.1, hfr3, List.dropLast_concat]

/-- A successful `validate` call returns the path it was given: the
append/update/pop mutation discipline of the source restores the shared
path list. -/
theorem validateF_path :
    ∀ (fuel : Nat) (v : Value) (d : Desc) (p : Path) (p2 : Path) (w : List String),
      validateF fuel v d p = .ok (p2, w) → p2 = p := by
  intro fuel
  induction fuel with
  | zero => intro v d p p2 w h; simp [validateF] at h
  | succ k ih =>
    intro v d p p2 w h
    exact validateBody_path _ (fun v1 d1 p1 q1 w1 hx => ih v1 d1 p1 q1 w1 hx) v d p p2 w h

/-! ## Unfolding shortcuts and dict-loop characterisations -/

/-- Entering `validate` on a dict value and dict descriptor reaches
`_validate_dict` with an empty path and the recursive call one fuel
level down. -/
theorem validate_dict_eq (kvs : List (String × Value)) (props : List (String × Desc)) :
    validate (.dict kvs) (dictDesc props)
      = validateDict (fun v1 d1 p1 => validateF (depthKV kvs) v1 d1 p1) kvs props [] [] :=
  rfl

/-- Entering `validate` on an array value and ndarray descriptor reaches
`_validate_ndarray`. -/
theorem validate_ndarray_eq (sh : List Nat) (dt : NpKind) (items : List Value)
    (stoks : List ShapeTok) (ito : Option Desc) :
    validate (.array sh dt items) (ndDesc stoks ito)
      = validateNdarray (fun v1 d1 p1 => validateF (depthL items) v1 d1 p1)
          sh dt items stoks (ndDesc stoks ito) [] [] :=
  rfl

/-- When every key of the value dict is anticipated by the properties,
the unexpected-key loop succeeds, leaving a single updated frame on the
path. -/
theorem checkUnexpected_ok_of_all :
    ∀ (kvs : List (String × Value)) (props : List (String × Desc))
      (q : Path) (fr : String × Key),
      (∀ kv ∈ kvs, (props.lookup kv.1).isSome = true) →
      ∃ fr2, checkUnexpected kvs props (q ++ [fr]) = .ok (q ++ [fr2]) := by
  intro kvs
  induction kvs with
  | nil => intro props q fr _; exact ⟨fr, rfl⟩
  | cons kv rest ih =>
    intro props q fr h
    cases kv with
    | mk k v0 =>
      have hk : (props.lookup k).isSome = true := h (k, v0) (by simp)
      simp only [checkUnexpected, List.dropLast_concat]
      rw [if_neg (by
        intro hcon
        rw [Option.isNone_iff_eq_none] at hcon
        rw [hcon] at hk
        simp at hk)]
      exact ih props q ("dict", Key.key k) (fun kv2 h2 => h kv2 (by simp [h2]))

/-- When some key of the value dict is not anticipated, the
unexpected-key loop raises for the first such key, naming it and the
path. -/
theorem checkUnexpected_err :
    ∀ (kvs : List (String × Value)) (props : List (String × Desc))
      (q : Path) (fr : String × Key) (k : String),
      firstUnexpected kvs props = some k →
      checkUnexpected kvs props (q ++ [fr])
        = .error (generateErrMsg (q ++ [("dict", Key.key k)])
            ("dl.run given improper input: given unexpected dictionary key: " ++ pyReprStr k)) := by
  intro kvs
  induction kvs with
  | nil => intro props q fr k h; simp [firstUnexpected] at h
  | cons kv rest ih =>
    intro props q fr k h
    cases kv with
    | mk k0 v0 =>
      simp only [checkUnexpected, List.dropLast_concat]
      by_cases hk : (props.lookup k0).isNone = true
      · rw [if_pos hk]
        simp only [firstUnexpected, List.find?] at h
        rw [hk] at h
        simp at h
        rw [h]
      · rw [if_neg hk]
        apply ih
        simp only [firstUnexpected, List.find?] at h ⊢
        rw [Bool.not_eq_true] at hk
        rw [hk] at h
        exact h

/-- Walking the properties loop past entries whose values exist and
validate, the first property key absent from the value dict raises the
missing-key error naming it and the path. -/
theorem goProps_missing (rec : Value → Desc → Path → Res)
    (hrec : ∀ v1 d1 p1 q1 w1, rec v1 d1 p1 = .ok (q1, w1) → q1 = p1) :
    ∀ (pre : List (String × Desc)) (k : String) (dk : Desc)
      (post : List (String × Desc)) (kvs : List (String × Value))
      (q : Path) (fr : String × Key) (w : List String),
      kvs.lookup k = none →
      (∀ k1 d1, (k1, d1) ∈ pre → ∃ v1, kvs.lookup k1 = some v1 ∧
        ∃ r, rec v1 d1 (q ++ [("dict", Key.key k1)]) = .ok r) →
      goProps rec (pre ++ (k, dk) :: post) kvs (q ++ [fr]) w
        = .error (generateErrMsg (q ++ [("dict", Key.key k)])
            ("dl.run given improper input: expected dictionary key: "
              ++ pyReprStr k ++ " to be present")) := by
  intro pre
  induction pre with
  | nil =>
    intro k dk post kvs q fr w hnone _
    simp only [List.nil_append, goProps, List.dropLast_concat]
    rw [hnone]
  | cons kd rest ih =>
    intro k dk post kvs q fr w hnone hpre
    cases kd with
    | mk k1 d1 =>
      obtain ⟨v1, hv1, r, hr⟩ := hpre k1 d1 (by simp)
      simp only [List.cons_append, goProps, List.dropLast_concat]
      rw [hv1]
      simp only []
      cases r with
      | mk q1 w1 =>
        have hq1 : q1 = q ++ [("dict", Key.key k1)] := hrec _ _ _ _ _ hr
        rw [hr]
        simp only []
        subst hq1
        exact ih k dk post kvs q ("dict", Key.key k1) (w ++ w1) hnone
          (fun k2 d2 h2 => hpre k2 d2 (by simp [h2]))

/-- The type check sees an array only through its class, never its
elements. -/
theorem validateTypeInst_array_items (sh : List Nat) (dt : NpKind)
    (items items2 : List Value) (spec : TypeSpec) (p : Path) :
    validateTypeInst (.array sh dt items) spec p
      = validateTypeInst (.array sh dt items2) spec p := by
  cases spec with
  | single c => rfl
  | tup cs => rfl

/-- `_validate_ndarray` reads the elements only through `arr.item(0)`, so
two arrays agreeing on shape, dtype and first element validate
identically. -/
theorem validateNdarray_firstOnly (rec : Value → Desc → Path → Res)
    (sh : List Nat) (dt : NpKind) (x : Value) (xs ys : List Value)
    (stoks : List ShapeTok) (d : Desc) (p : Path) (w : List String) :
    validateNdarray rec sh dt (x :: xs) stoks d p w
      = validateNdarray rec sh dt (x :: ys) stoks d p w := by
  simp only [validateNdarray, arrItem0]

/-- `validate` depends on an array argument only through its shape, dtype
and first element. -/
theorem validateBody_array_firstOnly (rec : Value → Desc → Path → Res)
    (sh : List Nat) (dt : NpKind) (x : Value) (xs ys : List Value)
    (d : Desc) (p : Path) :
    validateBody rec (.array sh dt (x :: xs)) d p
      = validateBody rec (.array sh dt (x :: ys)) d p := by
  simp only [validateBody]
  cases typeNameToType d.type with
  | error e => rfl
  | ok spec =>
    simp only []
    rw [validateTypeInst_array_items sh dt (x :: xs) (x :: ys) spec p]
    cases validateTypeInst (.array sh dt (x :: ys)) spec p with
    | error e => rfl
    | ok w1 =>
      simp only []
      cases spec with
      | tup cs => rfl
      | single c => cases c <;> rfl

/-! ## Claim theorems -/

/-- C1: the claim says a `python object` descriptor performs a type check
only and `validate` returns `None` for every value.  On the code,
`_type_name_to_type` has no entry for `"python object"` and the builtins
fallback cannot contain a name with a space, so `validate` raises the
unknown-type ValueError for every value: the claim fails on the code
(`compose_argument_block`, `inspect.py` and the repository examples all
produce such descriptors, so this is a slip in the validator). -/
theorem C1_python_object_rejected (v : Value) (pt : String) :
    validate v (pyObjDesc pt)
      = .error (.valueError "found an unknown type name in servable metadata: python object") := by
  cases v <;> rfl

/-- C2: the claim (and the repository's own `test_validation`, which
feeds `"Any"` shapes and expects success) says both `"None"` and `"Any"`
are wildcard dimension tokens.  On the code only `"None"` is kept;
`int("Any")` raises ValueError, so a shape containing `"Any"` crashes
instead of matching.  This theorem evaluates the code: `"Any"` raises the
int-parse ValueError on an array the claim says is accepted, while the
`"None"` wildcard behaves as claimed (accepting (5,2), rejecting (5,3)
and rejecting rank 1). -/
theorem C2_any_wildcard_crashes :
    validate (.array [1, 2] .i [.int 1, .int 2]) (ndDesc [.str "Any", .num 2] none)
      = .error (.valueError "invalid literal for int() with base 10: \x27Any\x27")
  ∧ validate (.array [5, 2] .i (List.replicate 10 (.int 1))) (ndDesc [.str "None", .num 2] none)
      = .ok ([], [])
  ∧ validate (.array [5, 3] .i (List.replicate 15 (.int 1))) (ndDesc [.str "None", .num 2] none)
      = .error (.valueError
          "dl.run given improper input: expected ndarray.shape = (\x27None\x27, 2), received shape: (5, 3)")
  ∧ validate (.array [2] .i [.int 1, .int 2]) (ndDesc [.str "None", .num 2] none)
      = .error (.valueError
          "dl.run given improper input: expected ndarray.shape = (\x27None\x27, 2), received shape: (2,)") :=
  ⟨rfl, rfl, rfl, rfl⟩

/-- C3 counterexample: the kind `"object"` is outside the fixed set, yet
the builder returns a block without error and the validator accepts the
value `1` against it (through the `__builtins__` fallback), contradicting
the claim that both raise. -/
theorem C3_unknown_kind_cex :
    compose_argument_block "object" "any object" none none none none none []
      = .ok (Desc.mk "object" (some "any object") none none none none none [])
  ∧ validate (.int 1) (Desc.mk "object" (some "any object") none none none none none [])
      = .ok ([], []) :=
  ⟨rfl, rfl⟩

/-- C3 amended: the builder performs no kind check at all — any kind
name outside the five with required fields composes without error.  The
validator resolves kind names through its table and then Python's
builtins, so builtin type names outside the fixed set are not errors:
`"object"` accepts any value and `"frozenset"` resolves to an ordinary
type check (a TypeMismatch, not an unknown-kind error, for a
non-frozenset value).  A name found in neither — `"nonsense"`, the one
the repository's own error test uses, which is not a Python builtin —
raises the unknown-type-name ValueError for every value. -/
theorem C3_unknown_kind_amended :
    (∀ (k : String) (descr : String),
      (k == "ndarray") = false → (k == "list") = false → (k == "tuple") = false →
      (k == "python object") = false → (k == "dict") = false →
      compose_argument_block k descr none none none none none []
        = .ok (Desc.mk k (some descr) none none none none none []))
  ∧ (∀ v : Value,
      validate v (bareDesc "nonsense")
        = .error (.valueError "found an unknown type name in servable metadata: nonsense"))
  ∧ validate (.str "s") (bareDesc "object") = .ok ([], [])
  ∧ validate (.int 1) (bareDesc "frozenset")
      = .error (.typeError "dl.run given improper input type: expected frozenset, received int") := by
  refine ⟨?_, ?_, rfl, rfl⟩
  · intro k descr h1 h2 h3 h4 h5
    simp [compose_argument_block, h1, h2, h3, h4, h5]
  · intro v
    cases v <;> rfl

/-- C3 witness: the non-builtin kind `"nonsense"` composes without error
but is rejected by the validator. -/
theorem C3_unknown_kind_witness :
    compose_argument_block "nonsense" "d" none none none none none []
      = .ok (Desc.mk "nonsense" (some "d") none none none none none [])
  ∧ validate (.int 1) (bareDesc "nonsense")
      = .error (.valueError "found an unknown type name in servable metadata: nonsense") :=
  ⟨C3_unknown_kind_amended.1 "nonsense" "d" rfl rfl rfl rfl rfl,
   C3_unknown_kind_amended.2.1 (.int 1)⟩

/-- C5: the claim says every builder descriptor with its required fields
supplied accepts at least one literal value.  The builder's
`python object` output is a counterexample on the code: `validate`
raises the unknown-type ValueError for every value against it (same root
cause as C1), so no conforming value exists. -/
theorem C5_round_trip_fails :
    compose_argument_block "python object" "an object" none none (some "builtins.int") none none []
      = .ok (Desc.mk "python object" (some "an object") none none none none (some "builtins.int") [])
  ∧ ∀ v : Value,
      validate v (Desc.mk "python object" (some "an object") none none none none (some "builtins.int") [])
        = .error (.valueError "found an unknown type name in servable metadata: python object") := by
  refine ⟨rfl, ?_⟩
  intro v
  cases v <;> rfl

/-- C6 counterexample: `compose_argument_block("ndarray", ..., shape=[])`
returns a block storing the empty shape instead of raising the claimed
missing-field error — only an absent (`None`) shape raises. -/
theorem C6_shape_empty_cex :
    compose_argument_block "ndarray" "d" (some []) none none none none []
      = .ok (Desc.mk "ndarray" (some "d") (some []) none none none none []) :=
  rfl

/-- C6 amended: compose fails with the missing-field ValueError exactly
when `shape` is absent; any supplied shape, the empty sequence included,
is stored in the result. -/
theorem C6_shape_required_amended :
    (∀ descr : String,
      compose_argument_block "ndarray" descr none none none none none []
        = .error (.valueError "Shape must be specified for ndarrays"))
  ∧ (∀ (descr : String) (l : List ShapeTok),
      compose_argument_block "ndarray" descr (some l) none none none none []
        = .ok (Desc.mk "ndarray" (some descr) (some l) none none none none [])) :=
  ⟨fun _ => rfl, fun _ _ => rfl⟩

/-- C9: for a list-of-dicts descriptor with the third element's `"a"`
value of the wrong type, the raised error's message carries the located
path, referencing index 2 and key `a`. -/
theorem C9_nested_error_location :
    validate (.list [.dict [("a", .int 1)], .dict [("a", .int 2)], .dict [("a", .str "oops")]])
        (listDesc (dictDesc [("a", bareDesc "integer")]))
      = .error (.typeError
          "dl.run given improper input type: expected list[dict[int]], received str at input[2][\x27a\x27]")
  ∧ containsSub
      "dl.run given improper input type: expected list[dict[int]], received str at input[2][\x27a\x27]"
      "[2]" = true
  ∧ containsSub
      "dl.run given improper input type: expected list[dict[int]], received str at input[2][\x27a\x27]"
      "[\x27a\x27]" = true :=
  ⟨rfl, rfl, rfl⟩

/-- C4: dict validation enforces the closed key set — an empty properties
mapping accepts any dict; a value key absent from the properties raises
the unexpected-key ValueError naming the (first such) key and the path;
with all value keys anticipated, a properties key absent from the value
(after the earlier properties validate) raises the missing-key ValueError
naming it and the path. -/
theorem C4_dict_key_enforcement :
    (∀ kvs : List (String × Value), validate (.dict kvs) (dictDesc []) = .ok ([], []))
  ∧ (∀ (kvs : List (String × Value)) (props : List (String × Desc)) (k : String),
      props ≠ [] → firstUnexpected kvs props = some k →
      validate (.dict kvs) (dictDesc props)
        = .error (generateErrMsg [("dict", Key.key k)]
            ("dl.run given improper input: given unexpected dictionary key: " ++ pyReprStr k)))
  ∧ (∀ (kvs : List (String × Value)) (pre post : List (String × Desc)) (k : String) (dk : Desc),
      (∀ kv ∈ kvs, (((pre ++ (k, dk) :: post).lookup kv.1)).isSome = true) →
      kvs.lookup k = none →
      (∀ k1 d1, (k1, d1) ∈ pre → ∃ v1, kvs.lookup k1 = some v1 ∧
        ∃ r, validateAt v1 d1 [("dict", Key.key k1)] = .ok r) →
      validate (.dict kvs) (dictDesc (pre ++ (k, dk) :: post))
        = .error (generateErrMsg [("dict", Key.key k)]
            ("dl.run given improper input: expected dictionary key: "
              ++ pyReprStr k ++ " to be present"))) := by
  refine ⟨fun kvs => rfl, ?_, ?_⟩
  · intro kvs props k hne hfu
    rw [validate_dict_eq]
    simp only [validateDict]
    have hpe : props.isEmpty = false := by
      cases props with
      | nil => exact absurd rfl hne
      | cons a l => rfl
    rw [if_neg (by rw [hpe]; exact Bool.false_ne_true)]
    simp only [List.nil_append]
    have hc := checkUnexpected_err kvs props [] ("dict", Key.noneK) k hfu
    simp only [List.nil_append] at hc
    rw [hc]
  · intro kvs pre post k dk hall hnone hpre
    rw [validate_dict_eq]
    simp only [validateDict]
    have hpe : (pre ++ (k, dk) :: post).isEmpty = false := by
      cases pre with
      | nil => rfl
      | cons a l => rfl
    rw [if_neg (by rw [hpe]; exact Bool.false_ne_true)]
    simp only [List.nil_append]
    obtain ⟨fr2, hc⟩ := checkUnexpected_ok_of_all kvs (pre ++ (k, dk) :: post) []
      ("dict", Key.noneK) hall
    simp only [List.nil_append] at hc
    rw [hc]
    simp only []
    have hg := goProps_missing (fun v1 d1 p1 => validateF (depthKV kvs) v1 d1 p1)
      (fun v1 d1 p1 q1 w1 hx => validateF_path _ _ _ _ _ _ hx)
      pre k dk post kvs [] fr2 [] hnone ?_
    · simp only [List.nil_append] at hg
      rw [hg]
    · intro k1 d1 hmem
      obtain ⟨v1, hv1, r, hr⟩ := hpre k1 d1 hmem
      refine ⟨v1, hv1, r, ?_⟩
      show validateF (depthKV kvs) v1 d1 ([] ++ [("dict", Key.key k1)]) = Except.ok r
      rw [validateF_irrel (depthKV kvs) (depthV v1) v1 d1 _
        (depthV_le_of_lookup hv1) (Nat.le_refl _)]
      exact hr

/-- C4 witness: the three parts at concrete inputs — any dict against
empty properties, an extra key `d`, and a missing key `c`. -/
theorem C4_witness :
    validate (.dict [("a", .int 1)]) (dictDesc []) = .ok ([], [])
  ∧ validate (.dict [("a", .int 1), ("d", .int 2)]) (dictDesc [("a", bareDesc "integer")])
      = .error (.valueError
          "dl.run given improper input: given unexpected dictionary key: \x27d\x27 at input[\x27d\x27]")
  ∧ validate (.dict [("a", .int 1)]) (dictDesc [("a", bareDesc "integer"), ("c", bareDesc "integer")])
      = .error (.valueError
          "dl.run given improper input: expected dictionary key: \x27c\x27 to be present at input[\x27c\x27]") := by
  refine ⟨C4_dict_key_enforcement.1 _, ?_, ?_⟩
  · exact (C4_dict_key_enforcement.2.1 [("a", .int 1), ("d", .int 2)]
      [("a", bareDesc "integer")] "d" (by simp) rfl).trans rfl
  · exact (C4_dict_key_enforcement.2.2 [("a", .int 1)] [("a", bareDesc "integer")] []
      "c" (bareDesc "integer") (by simp) rfl
      (fun k1 d1 hmem => by
        simp at hmem
        rw [hmem.1, hmem.2]
        exact ⟨.int 1, rfl, ([("dict", Key.key "a")], []), rfl⟩)).trans rfl

/-- C7: the validator's type check is `isinstance`-based — any value
whose class passes the instance check (a subclass relationship, not
type equality) is accepted; in particular a boolean validates against an
`integer` descriptor, returning success with the non-fatal warning even
though its type is not `int`. -/
theorem C7_isinstance_policy :
    (∀ (v : Value) (spec : TypeSpec) (p : Path),
      isinstanceSpec v spec = true → ∃ ws, validateTypeInst v spec p = .ok ws)
  ∧ (∀ b : Bool,
      validate (.bool b) (bareDesc "integer") = .ok ([], [boolIntWarning])
      ∧ pyClassOf (.bool b) ≠ PyClass.int) := by
  constructor
  · intro v spec p h
    by_cases h2 : (isinstanceC v PyClass.bool && specIsInt spec) = true
    · exact ⟨[boolIntWarning], by simp [validateTypeInst, h, h2]⟩
    · exact ⟨[], by simp [validateTypeInst, h, h2]⟩
  · intro b
    exact ⟨rfl, by simp [pyClassOf]⟩

/-- C7 witness: a boolean passes the instance check for `int` and the
type check succeeds. -/
theorem C7_witness :
    isinstanceSpec (.bool true) (.single PyClass.int) = true
  ∧ ∃ ws, validateTypeInst (.bool true) (.single PyClass.int) [] = .ok ws :=
  ⟨rfl, C7_isinstance_policy.1 (.bool true) (.single PyClass.int) [] rfl⟩

/-- C8: a successful validation returns the path state exactly as it was
given — the append/update/pop mutation discipline restores the shared
path list — and running the call again from the resulting state yields
the identical result.  The value and descriptor are read-only throughout
the embedding, matching the source, which never assigns into either. -/
theorem C8_no_mutation (fuel : Nat) (v : Value) (d : Desc) (p p2 : Path) (w : List String)
    (h : validateF fuel v d p = .ok (p2, w)) :
    p2 = p ∧ validateF fuel v d p2 = validateF fuel v d p := by
  have hp := validateF_path fuel v d p p2 w h
  exact ⟨hp, by rw [hp]⟩

/-- C8 witness: a nested success restores a non-trivial caller path. -/
theorem C8_witness :
    validateF 2 (.list [.int 1]) (listDesc (bareDesc "integer")) [("f", Key.idx 0)]
      = .ok ([("f", Key.idx 0)], [])
  ∧ ([("f", Key.idx 0)] : Path) = [("f", Key.idx 0)] :=
  ⟨rfl,
   (C8_no_mutation 2 (.list [.int 1]) (listDesc (bareDesc "integer"))
     [("f", Key.idx 0)] [("f", Key.idx 0)] [] rfl).1⟩

/-- C10: ndarray element checking is sample-based.  First, an array whose
leading dimension is 0 (`len(arr) == 0`) skips the `item_type` check
entirely, so an empty array of any dtype passes a matching-shape
descriptor whatever the declared item type.  Second, `validate` reads an
array's elements only through `arr.item(0)`: two arrays agreeing on
shape, dtype and first element validate identically against every
descriptor, so later elements are never inspected. -/
theorem C10_sample_based :
    (∀ (stoks : List ShapeTok) (dims : List Dim) (dt : NpKind) (rest : List Nat) (it : Desc),
      convertShape stoks = .ok dims →
      (((0 :: rest) : List Nat).length != dims.length) = false →
      (((0 :: rest).zip dims).all dimOk) = true →
      validate (.array (0 :: rest) dt []) (ndDesc stoks (some it)) = .ok ([], []))
  ∧ (∀ (d : Desc) (sh : List Nat) (dt : NpKind) (x : Value) (xs ys : List Value),
      validate (.array sh dt (x :: xs)) d = validate (.array sh dt (x :: ys)) d) := by
  constructor
  · intro stoks dims dt rest it h1 h2 h3
    rw [validate_ndarray_eq]
    simp only [validateNdarray]
    rw [h1]
    simp only []
    rw [if_neg (by rw [h2]; exact Bool.false_ne_true)]
    rw [if_neg (by rw [h3]; simp)]
    simp [ndDesc, Desc.item_type, arrLen]
  · intro d sh dt x xs ys
    have ha := validateF_irrel
      (max (depthV (.array sh dt (x :: xs))) (depthV (.array sh dt (x :: ys))))
      (depthV (.array sh dt (x :: xs))) (.array sh dt (x :: xs)) d []
      (Nat.le_max_left _ _) (Nat.le_refl _)
    have hb := validateF_irrel
      (max (depthV (.array sh dt (x :: xs))) (depthV (.array sh dt (x :: ys))))
      (depthV (.array sh dt (x :: ys))) (.array sh dt (x :: ys)) d []
      (Nat.le_max_right _ _) (Nat.le_refl _)
    obtain ⟨m, hm⟩ : ∃ m,
        max (depthV (.array sh dt (x :: xs))) (depthV (.array sh dt (x :: ys))) = m + 1 := by
      have h1 := depthV_pos (.array sh dt (x :: xs))
      have h2 := Nat.le_max_left (depthV (.array sh dt (x :: xs)))
        (depthV (.array sh dt (x :: ys)))
      exact ⟨max (depthV (.array sh dt (x :: xs))) (depthV (.array sh dt (x :: ys))) - 1,
        by omega⟩
    calc validate (.array sh dt (x :: xs)) d
        = validateF (max (depthV (.array sh dt (x :: xs))) (depthV (.array sh dt (x :: ys))))
            (.array sh dt (x :: xs)) d [] := ha.symm
      _ = validateF (max (depthV (.array sh dt (x :: xs))) (depthV (.array sh dt (x :: ys))))
            (.array sh dt (x :: ys)) d [] := by
          rw [hm]
          exact validateBody_array_firstOnly _ sh dt x xs ys d []
      _ = validate (.array sh dt (x :: ys)) d := hb

/-- C10 witness: an empty integer-dtype array passes a descriptor whose
item type is declared, the check being skipped. -/
theorem C10_witness :
    validate (.array [0] .U []) (ndDesc [.num 0] (some (bareDesc "integer"))) = .ok ([], []) :=
  C10_sample_based.1 [.num 0] [.num 0] .U [] (bareDesc "integer") rfl rfl rfl

end Dlhub
